import Mathlib

/-!
Verification of the device-header generator `tools/devheader.py`.

The generator reads a JSON document mapping device names to descriptors
(address, size, irqs, irqs_literal, gpios) and emits one C header per
mappable device (size different from the string "0") plus a shared
`devinfo.h`.  We embed the generator shallowly: the parsed JSON document
becomes an ordered association list of `Device` records whose fields are
`Option`s (a `none` field models a key absent from the JSON object, whose
lookup raises `KeyError` in Python); writing to an open file becomes string
accumulation, so a run that dies mid-device still reports the partial
content written so far, exactly as the closed file keeps it on disk.
-/

namespace Devheader

/-- A slot of the `irqs` JSON array: either a JSON number (the literal `0`
means "no IRQ here") or a string naming an IRQ macro. -/
inductive IrqEntry where
  | lit (n : Int)
  | sym (s : String)
  deriving DecidableEq, Repr

/-- A `gpios` array element; `port` and `pin` hold the token exactly as
Python's `%s` formatting would print the JSON value. -/
structure Gpio where
  port : String
  pin : String
  deriving DecidableEq, Repr

/-- One device descriptor from the JSON document.  A `none` field models
the key being absent from the JSON object. -/
structure Device where
  address : Option String
  size : Option String
  irqs : Option (List IrqEntry)
  irqs_literal : Option (List Int)
  gpios : Option (List Gpio)
  deriving DecidableEq, Repr

/-- An uncaught Python exception raised while generating: a `KeyError` on a
missing dict field, or an `IndexError` on an out-of-range list index. -/
inductive GenError where
  | keyError (field : String)
  | indexError
  deriving DecidableEq, Repr

/-- The `c_header` license block string of devheader.py, byte for byte. -/
def c_header : String :=
  "/*\n *\n * Copyright 2018 The wookey project team <wookey@ssi.gouv.fr>\n *   - Ryad     Benadjila\n *   - Arnauld  Michelizza\n *   - Mathieu  Renard\n *   - Philippe Thierry\n *   - Philippe Trebuchet\n *\n * This package is free software; you can redistribute it and/or modify\n * it under the terms of the GNU Lesser General Public License as published\n * the Free Software Foundation; either version 2.1 of the License, or (at\n * ur option) any later version.\n *\n * This package is distributed in the hope that it will be useful, but WITHOUT ANY\n * WARRANTY; without even the implied warranty of MERCHANTABILITY or FITNESS FOR A\n * PARTICULAR PURPOSE. See the GNU Lesser General Public License for more details.\n *\n * You should have received a copy of the GNU Lesser General Public License along\n * with this package; if not, write to the Free Software Foundation, Inc., 51\n * Franklin St, Fifth Floor, Boston, MA 02110-1301 USA\n *\n * This file has been generated by devheader.py from a Tataouine SDK Json layout file\n *\n */\n"

/-- The `c_definition` string of devheader.py (shared structure text). -/
def c_definition : String :=
  "\n\n#include \"api/types.h\"\n#include \"api/syscall.h\"\n\n\n/*\n** This file defines the valid adress ranges where devices are mapped.\n** This allows the kernel to check that device registration requests correct\n** mapping.\n**\n** Of course these informations are SoC specific\n** This file may be completed by a bord specific file for board devices\n*/\n\n/*!\n** \\brief Structure defining the STM32 device map\n**\n** This table is based on doc STMicro RM0090 Reference manual memory map\n** Only devices that may be registered by userspace are mapped here\n**\n** See #soc_devices_list\n*/\n\nstruct user_driver_device_gpio_infos \x7b\n    uint8_t    port;\n    uint8_t    pin;\n\x7d;\n\nstruct user_driver_device_infos \x7b\n    physaddr_t addr;       /**< Device MMIO base address */\n    uint32_t   size;       /**< Device MMIO mapping size */\n    uint8_t    irq[4];     /**< IRQ line, when exist, or 0, max 4 irq lines per device */\n    /** GPIO informations of the device (pin, port) */\n    struct user_driver_device_gpio_infos gpios[4];\n\x7d;\n\n\n"

/-- The `c_footer` string of devheader.py. -/
def c_footer : String := "\n\n#endif\n"

/-- Python `\"%s\" % irq` on an `irqs` slot: a JSON number prints in
decimal, a JSON string prints verbatim. -/
def showIrq : IrqEntry → String
  | .lit n => toString n
  | .sym s => s

/-- A Python `for` loop that writes `f a` to the open file for each element
`a` of a list, modelled as the concatenation of the written pieces. -/
def writeEach (f : α → String) : List α → String
  | [] => ""
  | a :: l => f a ++ writeEach f l

/-- The IRQ-macro loop of `generate_c` (devheader.py lines 145-148):
`for index, irq in enumerate(irqs): if irq != 0: irqvals = dev["irqs_literal"];
write("#define %s %d\n" % (irq, irqvals[index]))`.  The first component is
the text written so far; a `some` error models the uncaught exception that
aborts the run (`KeyError` when `irqs_literal` is absent, `IndexError` when
`index` is out of range). -/
def irqMacroLoop (dev : Device) : Nat → List IrqEntry → String × Option GenError
  | _, [] => ("", none)
  | index, irq :: rest =>
    if irq = IrqEntry.lit 0 then
      irqMacroLoop dev (index + 1) rest
    else
      match dev.irqs_literal with
      | none => ("", some (GenError.keyError "irqs_literal"))
      | some irqvals =>
        if index < irqvals.length then
          let line := "#define " ++ showIrq irq ++ " " ++ toString (irqvals.getD index 0) ++ "\n"
          let r := irqMacroLoop dev (index + 1) rest
          (line ++ r.1, r.2)
        else
          ("", some GenError.indexError)

/-- The text written for one element of the `gpios` array
(devheader.py line 168). -/
def gpioLine (g : Gpio) : String :=
  "      \x7b " ++ g.port ++ ", " ++ g.pin ++ " \x7d,\n"

/-- The body of the `.gpios[]` initializer (devheader.py lines 165-175):
present pairs in order, then `\x7b 0, 0 \x7d` padding over
`range(len(gpios), 4)` when fewer than 4; four `\x7b 0, 0 \x7d` pairs when
the `gpios` key is absent. -/
def gpioSection (dev : Device) : String :=
  match dev.gpios with
  | some gpios =>
    writeEach gpioLine gpios
      ++ (if gpios.length < 4 then
            writeEach (fun _ => "      \x7b 0, 0 \x7d,\n")
              (List.range' gpios.length (4 - gpios.length))
          else "")
  | none =>
    writeEach (fun _ => "      \x7b 0, 0 \x7d,\n") ([1, 2, 3, 4] : List Nat)

/-- The `.irqs[]` element text after the opening brace (devheader.py lines
159-162): `"    %s" % irqs[0]` then `", %s" % irq` for each later slot,
then `" \x7d,\n"`. -/
def irqListTail (first : IrqEntry) (rest : List IrqEntry) : String :=
  "    " ++ showIrq first ++ writeEach (fun irq => ", " ++ showIrq irq) rest ++ " \x7d,\n"

/-- Per-device emission, devheader.py lines 135-180: the content of
`<device>.h` as written to the open file, together with the uncaught
exception, if any, that aborted the run after that content was written. -/
def emitDevice (device : String) (dev : Device) : String × Option GenError :=
  let devheadername := device.toUpper ++ "_H_"
  let s0 := c_header ++ "#ifndef " ++ devheadername ++ "\n# define " ++ devheadername
              ++ "\n" ++ "\n#include \"generated/devinfo.h\"\n\n"
  match dev.irqs with
  | none => (s0, some (GenError.keyError "irqs"))
  | some irqs =>
    let m := irqMacroLoop dev 0 irqs
    let s1 := s0 ++ m.1
    match m.2 with
    | some err => (s1, some err)
    | none =>
      let s2 := s1 ++ "\n" ++ "static const struct user_driver_device_infos " ++ device
                  ++ "_dev_infos" ++ " = \x7b\n"
      match dev.address with
      | none => (s2, some (GenError.keyError "address"))
      | some addr =>
        let s3 := s2 ++ "    .address = " ++ addr ++ ",\n"
        match dev.size with
        | none => (s3, some (GenError.keyError "size"))
        | some sz =>
          let s4 := s3 ++ "    .size    = " ++ sz ++ ",\n"
          let s5 := s4 ++ "    .irqs[] = \x7b "
          match irqs with
          | [] => (s5, some GenError.indexError)
          | first :: rest =>
            let s6 := s5 ++ irqListTail first rest
            let s7 := s6 ++ "    .gpios[] = \x7b\n" ++ gpioSection dev
                        ++ "    \x7d\n\x7d;\n" ++ c_footer
            (s7, none)

/-- The fixed content of `devinfo.h` (devheader.py lines 121-126). -/
def devinfoContent : String :=
  c_header ++ "#ifndef DEVINFO_H_\n" ++ "# define DEVINFO_H_\n" ++ c_definition
    ++ "#endif/*!DEVINFO_H_*/\n"

/-- The device loop of `generate_c` (devheader.py lines 128-180) over the
ordered device list, accumulating `(filename, content)` pairs in write
order.  A device whose `size` is the string "0" is skipped; a missing
`size` key raises before the device file is created; any error during
emission keeps the partial file and stops the loop. -/
def generateGo : List (String × Device) → List (String × String) →
    List (String × String) × Option GenError
  | [], acc => (acc, none)
  | (device, dev) :: rest, acc =>
    match dev.size with
    | none => (acc, some (GenError.keyError "size"))
    | some sz =>
      if sz = "0" then
        generateGo rest acc
      else
        let r := emitDevice device dev
        match r.2 with
        | some err => (acc ++ [(device ++ ".h", r.1)], some err)
        | none => generateGo rest (acc ++ [(device ++ ".h", r.1)])

/-- `generate_c` of devheader.py: writes `devinfo.h` first, then one header
per mappable device, returning the files written (with content) in order,
and the uncaught exception that stopped the run, if any. -/
def generate_c (data : List (String × Device)) : List (String × String) × Option GenError :=
  generateGo data [("devinfo.h", devinfoContent)]

/-- The output directory's state: the set of created directories and, for
each file name, its content (`none` means the file does not exist). -/
structure FS where
  dirs : List String
  files : String → Option String

/-- Overwrite-mode file write (Python `open(..., "w")` plus the writes):
the named file now holds exactly the given content. -/
def fsWrite (fm : String → Option String) (w : String × String) : String → Option String :=
  fun m => if m = w.1 then some w.2 else fm m

/-- Apply a list of file writes in order. -/
def writeFiles (fm : String → Option String) (ws : List (String × String)) :
    String → Option String :=
  ws.foldl fsWrite fm

/-- The content of the last write to a given name in a write list, if any. -/
def lastWrite : List (String × String) → String → Option String
  | [], _ => none
  | w :: ws, m =>
    match lastWrite ws m with
    | some c => some c
    | none => if w.1 = m then some w.2 else none

/-- `os.makedirs(outdir)` guarded by `os.path.exists` (devheader.py lines
110-111): create the directory when missing, leave the state alone when it
exists. -/
def ensureDir (fs : FS) (d : String) : FS :=
  if fs.dirs.contains d then fs else { fs with dirs := d :: fs.dirs }

/-- The text `print("usage: ", sys.argv[0], "<outdir> <filename.json>\n")`
sends to standard output (devheader.py line 25): `print` separates its
arguments with single spaces and appends a final newline. -/
def usageMsg (argv0 : String) : String :=
  "usage:  " ++ argv0 ++ " <outdir> <filename.json>\n\n"

/-- Outcome of one process run: final directory state, text printed to
standard output, and the process exit code (Python exits 1 both on the
explicit `sys.exit(1)` and on an uncaught exception, 0 otherwise). -/
structure RunOutcome where
  fs : FS
  stdout : String
  exitCode : Nat

/-- The whole program (devheader.py top level): check `len(sys.argv) != 3`
and print usage / exit 1 before touching the filesystem; otherwise create
the output directory, load the JSON (given here already parsed, since the
claims under verification concern the generation stage) and run
`generate_c`, writing each produced file into the directory. -/
def runProgram (argv : List String) (data : List (String × Device)) (fs : FS) : RunOutcome :=
  if argv.length ≠ 3 then
    { fs := fs, stdout := usageMsg (argv.getD 0 ""), exitCode := 1 }
  else
    let outdir := argv.getD 1 ""
    let fs1 := ensureDir fs outdir
    let r := generate_c data
    let fs2 : FS := { dirs := fs1.dirs, files := writeFiles fs1.files r.1 }
    { fs := fs2, stdout := "", exitCode := match r.2 with | some _ => 1 | none => 0 }

/-- `t` occurs as a contiguous substring of `s`. -/
def ContainsStr (s t : String) : Prop :=
  t.data <:+: s.data

instance (s t : String) : Decidable (ContainsStr s t) :=
  List.decidableInfix t.data s.data

/-- Spec-side separator join (used to state that a braced list has exactly
one element per source entry). -/
def joinSep (sep : String) : List String → String
  | [] => ""
  | [a] => a
  | a :: b :: rest => a ++ sep ++ joinSep sep (b :: rest)

/-- Spec-side description of the IRQ macro block: one
`#define <name> <irqs_literal[i]>` line per slot `i` whose `irqs` entry is
not the literal `0`, nothing for the `0` slots. -/
def macroSpec (irqs : List IrqEntry) (irqvals : List Int) : String :=
  writeEach
    (fun p => "#define " ++ showIrq p.2 ++ " " ++ toString (irqvals.getD p.1 0) ++ "\n")
    (irqs.enum.filter (fun p => p.2 ≠ IrqEntry.lit 0))

/-! ## Helper lemmas -/

theorem containsStr_of_eq {s t : String} (p q : String) (h : s = p ++ t ++ q) :
    ContainsStr s t :=
  ⟨p.data, q.data, by simp [h, String.data_append, List.append_assoc]⟩

/-- Unfolding of `emitDevice` on a device that emits without error. -/
theorem emitDevice_eq (device : String) (dev : Device) (first : IrqEntry)
    (rest : List IrqEntry) (addr sz : String)
    (hirqs : dev.irqs = some (first :: rest))
    (hm : (irqMacroLoop dev 0 (first :: rest)).2 = none)
    (haddr : dev.address = some addr) (hsz : dev.size = some sz) :
    emitDevice device dev =
      (c_header ++ "#ifndef " ++ (device.toUpper ++ "_H_") ++ "\n# define "
         ++ (device.toUpper ++ "_H_") ++ "\n" ++ "\n#include \"generated/devinfo.h\"\n\n"
       ++ (irqMacroLoop dev 0 (first :: rest)).1
       ++ "\n" ++ "static const struct user_driver_device_infos " ++ device
       ++ "_dev_infos" ++ " = \x7b\n"
       ++ "    .address = " ++ addr ++ ",\n"
       ++ "    .size    = " ++ sz ++ ",\n"
       ++ "    .irqs[] = \x7b "
       ++ irqListTail first rest
       ++ "    .gpios[] = \x7b\n" ++ gpioSection dev ++ "    \x7d\n\x7d;\n" ++ c_footer,
       none) := by
  simp only [emitDevice, hirqs, hm, haddr, hsz]

theorem generateGo_cons_noSize (device : String) (dev : Device)
    (rest : List (String × Device)) (acc : List (String × String))
    (h : dev.size = none) :
    generateGo ((device, dev) :: rest) acc = (acc, some (GenError.keyError "size")) := by
  simp only [generateGo, h]

theorem generateGo_cons_skip (device : String) (dev : Device)
    (rest : List (String × Device)) (acc : List (String × String))
    (h : dev.size = some "0") :
    generateGo ((device, dev) :: rest) acc = generateGo rest acc := by
  simp only [generateGo, h, if_pos]

theorem generateGo_cons_ok (device : String) (dev : Device)
    (rest : List (String × Device)) (acc : List (String × String)) (sz : String)
    (hsz : dev.size = some sz) (h0 : sz ≠ "0")
    (hok : (emitDevice device dev).2 = none) :
    generateGo ((device, dev) :: rest) acc =
      generateGo rest (acc ++ [(device ++ ".h", (emitDevice device dev).1)]) := by
  simp only [generateGo, hsz, h0, if_neg, hok, if_false]

theorem generateGo_cons_err (device : String) (dev : Device)
    (rest : List (String × Device)) (acc : List (String × String)) (sz : String)
    (e : GenError)
    (hsz : dev.size = some sz) (h0 : sz ≠ "0")
    (herr : (emitDevice device dev).2 = some e) :
    generateGo ((device, dev) :: rest) acc =
      (acc ++ [(device ++ ".h", (emitDevice device dev).1)], some e) := by
  simp only [generateGo, hsz, h0, if_neg, herr, if_false]

/-- The accumulator only ever grows by appends: running the loop with any
accumulator produces the accumulator followed by what the loop would
produce from an empty one, with the same error. -/
theorem generateGo_acc (l : List (String × Device)) :
    ∀ acc : List (String × String),
      generateGo l acc = (acc ++ (generateGo l []).1, (generateGo l []).2) := by
  induction l with
  | nil => intro acc; simp [generateGo]
  | cons hd tl ih =>
    intro acc
    obtain ⟨device, dev⟩ := hd
    cases hsz : dev.size with
    | none => simp [generateGo_cons_noSize _ _ _ _ hsz]
    | some sz =>
      by_cases h0 : sz = "0"
      · subst h0
        rw [generateGo_cons_skip _ _ _ _ hsz, generateGo_cons_skip _ _ _ _ hsz, ih]
      · cases hok : (emitDevice device dev).2 with
        | none =>
          rw [generateGo_cons_ok _ _ _ _ _ hsz h0 hok,
            generateGo_cons_ok _ _ _ _ _ hsz h0 hok]
          simp only [List.nil_append]
          rw [ih, ih [(device ++ ".h", (emitDevice device dev).1)]]
          simp [List.append_assoc]
        | some e =>
          rw [generateGo_cons_err _ _ _ _ _ _ hsz h0 hok,
            generateGo_cons_err _ _ _ _ _ _ hsz h0 hok]
          simp

/-- Every file produced by a run of the device loop that finished without
error comes from a device of the document whose `size` is not "0", and
holds that device's complete emitted content. -/
theorem generateGo_mem (l : List (String × Device)) (hok : (generateGo l []).2 = none) :
    ∀ p ∈ (generateGo l []).1, ∃ device dev sz, (device, dev) ∈ l
      ∧ p = (device ++ ".h", (emitDevice device dev).1)
      ∧ (emitDevice device dev).2 = none
      ∧ dev.size = some sz ∧ sz ≠ "0" := by
  induction l with
  | nil => intro p hp; simp [generateGo] at hp
  | cons hd tl ih =>
    obtain ⟨device, dev⟩ := hd
    intro p hp
    cases hsz : dev.size with
    | none =>
      rw [generateGo_cons_noSize _ _ _ _ hsz] at hok
      simp at hok
    | some sz =>
      by_cases h0 : sz = "0"
      · subst h0
        rw [generateGo_cons_skip _ _ _ _ hsz] at hok hp
        obtain ⟨d, dv, sz, hm, he, hemit, hs, hs0⟩ := ih hok p hp
        exact ⟨d, dv, sz, List.mem_cons_of_mem _ hm, he, hemit, hs, hs0⟩
      · cases hemit : (emitDevice device dev).2 with
        | some e =>
          rw [generateGo_cons_err _ _ _ _ _ _ hsz h0 hemit] at hok
          simp at hok
        | none =>
          rw [generateGo_cons_ok _ _ _ _ _ hsz h0 hemit] at hok hp
          rw [generateGo_acc] at hok hp
          simp only [List.nil_append] at hok hp
          rcases List.mem_append.1 hp with hp | hp
          · rcases List.mem_singleton.1 hp with rfl
            exact ⟨device, dev, sz, List.mem_cons_self _ _, rfl, hemit, hsz, h0⟩
          · obtain ⟨d, dv, sz', hm, he, hemit', hs, hs0⟩ := ih hok p hp
            exact ⟨d, dv, sz', List.mem_cons_of_mem _ hm, he, hemit', hs, hs0⟩

/-- In a run of the device loop that finished without error, every device
of the document has a `size` field, and every device whose `size` is not
"0" got its file emitted in full. -/
theorem generateGo_emits (l : List (String × Device)) (hok : (generateGo l []).2 = none) :
    ∀ device dev, (device, dev) ∈ l → ∃ sz, dev.size = some sz ∧
      (sz ≠ "0" → (device ++ ".h", (emitDevice device dev).1) ∈ (generateGo l []).1
        ∧ (emitDevice device dev).2 = none) := by
  induction l with
  | nil => intro device dev h; cases h
  | cons hd tl ih =>
    obtain ⟨d0, dev0⟩ := hd
    intro device dev hmem
    cases hsz : dev0.size with
    | none =>
      rw [generateGo_cons_noSize _ _ _ _ hsz] at hok
      simp at hok
    | some sz0 =>
      by_cases h0 : sz0 = "0"
      · subst h0
        rw [generateGo_cons_skip _ _ _ _ hsz] at hok ⊢
        rcases List.mem_cons.1 hmem with he | hm
        · obtain ⟨rfl, rfl⟩ := Prod.mk.injEq .. ▸ he
          exact ⟨"0", hsz, fun h => absurd rfl h⟩
        · exact ih hok device dev hm
      · cases hemit : (emitDevice d0 dev0).2 with
        | some e =>
          rw [generateGo_cons_err _ _ _ _ _ _ hsz h0 hemit] at hok
          simp at hok
        | none =>
          rw [generateGo_cons_ok _ _ _ _ _ hsz h0 hemit] at hok ⊢
          rw [generateGo_acc] at hok ⊢
          simp only [List.nil_append] at hok ⊢
          rcases List.mem_cons.1 hmem with he | hm
          · obtain ⟨rfl, rfl⟩ := Prod.mk.injEq .. ▸ he
            exact ⟨sz0, hsz, fun _ => ⟨List.mem_append_left _ (List.mem_singleton.2 rfl), hemit⟩⟩
          · obtain ⟨sz', hs, himp⟩ := ih hok device dev hm
            exact ⟨sz', hs, fun h => ⟨List.mem_append_right _ (himp h).1, (himp h).2⟩⟩

/-- In a document with no repeated device name, a name determines its
descriptor. -/
theorem keys_unique {l : List (String × Device)} (h : (l.map Prod.fst).Nodup)
    {device : String} {dev dev' : Device}
    (h1 : (device, dev) ∈ l) (h2 : (device, dev') ∈ l) : dev = dev' := by
  induction l with
  | nil => cases h1
  | cons hd tl ih =>
    rw [List.map_cons, List.nodup_cons] at h
    rcases List.mem_cons.1 h1 with e1 | m1 <;> rcases List.mem_cons.1 h2 with e2 | m2
    · rw [← e1] at e2; exact (congrArg Prod.snd e2).symm
    · rw [← e1] at h; exact absurd (List.mem_map_of_mem Prod.fst m2) h.1
    · rw [← e2] at h; exact absurd (List.mem_map_of_mem Prod.fst m1) h.1
    · exact ih h.2 m1 m2

/-- Appending the same suffix to two strings is injective. -/
theorem string_append_right_cancel {a b : String} (s : String) (h : a ++ s = b ++ s) :
    a = b := by
  have hd : a.data ++ s.data = b.data ++ s.data := by
    simpa [String.data_append] using congrArg String.data h
  exact String.ext (List.append_inj' hd rfl).1

/-- A device file emitted in full declares `<device>_dev_infos`. -/
theorem emitDevice_ok_contains (device : String) (dev : Device)
    (hok : (emitDevice device dev).2 = none) :
    ContainsStr (emitDevice device dev).1
      ("static const struct user_driver_device_infos " ++ device ++ "_dev_infos") := by
  cases hirqs : dev.irqs with
  | none => simp [emitDevice, hirqs] at hok
  | some irqs =>
    cases hm : (irqMacroLoop dev 0 irqs).2 with
    | some e => simp [emitDevice, hirqs, hm] at hok
    | none =>
      cases haddr : dev.address with
      | none => simp [emitDevice, hirqs, hm, haddr] at hok
      | some addr =>
        cases hsz : dev.size with
        | none => simp [emitDevice, hirqs, hm, haddr, hsz] at hok
        | some sz =>
          cases irqs with
          | nil => simp [emitDevice, hirqs, hm, haddr, hsz] at hok
          | cons first rest =>
            have hdec := emitDevice_eq device dev first rest addr sz hirqs hm haddr hsz
            refine containsStr_of_eq
              (c_header ++ "#ifndef " ++ (device.toUpper ++ "_H_") ++ "\n# define "
                ++ (device.toUpper ++ "_H_") ++ "\n" ++ "\n#include \"generated/devinfo.h\"\n\n"
                ++ (irqMacroLoop dev 0 (first :: rest)).1 ++ "\n")
              (" = \x7b\n" ++ "    .address = " ++ addr ++ ",\n"
                ++ "    .size    = " ++ sz ++ ",\n" ++ "    .irqs[] = \x7b "
                ++ irqListTail first rest
                ++ "    .gpios[] = \x7b\n" ++ gpioSection dev ++ "    \x7d\n\x7d;\n"
                ++ c_footer) ?_
            rw [congrArg Prod.fst hdec]
            simp only [String.append_assoc]

/-! ## Concrete inputs used by the claims -/

/-- The `dma1` entry of the spec scenario: unmappable (`size == "0"`). -/
def dma1Dev : Device :=
  { address := some "0x40020000", size := some "0",
    irqs := some [.lit 0, .lit 0, .lit 0, .lit 0], irqs_literal := none, gpios := none }

/-- The `usart1` entry of the spec scenario. -/
def usart1Dev : Device :=
  { address := some "0x40011000", size := some "0x400",
    irqs := some [.sym "USART1_IRQ", .lit 0, .lit 0, .lit 0],
    irqs_literal := some [37, 0, 0, 0],
    gpios := some [⟨"1", "9"⟩, ⟨"1", "10"⟩] }

/-- The spec scenario document: `dma1` then `usart1`, in insertion order. -/
def scenarioData : List (String × Device) := [("dma1", dma1Dev), ("usart1", usart1Dev)]

/-- An unmappable device whose name collides with the shared header name. -/
def devinfoClashDev : Device :=
  { address := some "0x40000000", size := some "0",
    irqs := some [.lit 0, .lit 0, .lit 0, .lit 0], irqs_literal := none, gpios := none }

/-! ## Claims -/

/-- Claim C1, counterexample to the claim as stated: for the input document
whose single device is named `devinfo` with `size == "0"`, the run succeeds
and the output does contain a file named `devinfo.h` (the shared header),
even though the claim requires that no file named `<device>.h` exist for a
device with `size == "0"`. -/
theorem claim_C1_counterexample :
    devinfoClashDev.size = some "0"
    ∧ (generate_c [("devinfo", devinfoClashDev)]).2 = none
    ∧ ("devinfo" ++ ".h") ∈ (generate_c [("devinfo", devinfoClashDev)]).1.map Prod.fst := by
  refine ⟨rfl, rfl, ?_⟩
  decide

/-- Claim C1 (amended): in a document with distinct device names and a run
that finished without error, for every device not named `devinfo` (whose
file name would collide with the always-produced shared header), an output
file named `<device>.h` exists if and only if the device's `size` is not
the string "0", and when it exists it contains a declaration of
`<device>_dev_infos`. -/
theorem claim_C1 (data : List (String × Device)) (device : String) (dev : Device)
    (hmem : (device, dev) ∈ data)
    (hnodup : (data.map Prod.fst).Nodup)
    (hok : (generate_c data).2 = none)
    (hname : device ≠ "devinfo") :
    ((device ++ ".h") ∈ (generate_c data).1.map Prod.fst ↔ dev.size ≠ some "0")
    ∧ (dev.size ≠ some "0" →
        ∃ content, (device ++ ".h", content) ∈ (generate_c data).1 ∧
          ContainsStr content
            ("static const struct user_driver_device_infos " ++ device ++ "_dev_infos")) := by
  have hacc := generateGo_acc data [("devinfo.h", devinfoContent)]
  have hgo : (generateGo data []).2 = none := by
    rw [generate_c, hacc] at hok; exact hok
  have hfiles : (generate_c data).1 = ("devinfo.h", devinfoContent) :: (generateGo data []).1 := by
    rw [generate_c, hacc]; rfl
  have hdevh : ("devinfo" : String) ++ ".h" = "devinfo.h" := rfl
  constructor
  · constructor
    · intro hin
      rw [hfiles] at hin
      rcases List.mem_cons.1 hin with he | hm
      · have : device ++ ".h" = "devinfo" ++ ".h" := by rw [hdevh]; exact he
        exact absurd (string_append_right_cancel ".h" this) hname
      · obtain ⟨p, hp, hfst⟩ := List.mem_map.1 hm
        obtain ⟨d, dv, sz, hdmem, hpe, _, hs, hs0⟩ := generateGo_mem data hgo p hp
        have hdd : d = device := by
          apply string_append_right_cancel ".h"
          rw [← hfst, hpe]
        subst hdd
        have : dv = dev := keys_unique hnodup hdmem hmem
        subst this
        rw [hs]
        intro hcontra
        exact hs0 (Option.some.injEq .. ▸ hcontra)
    · intro hsz
      obtain ⟨sz, hs, himp⟩ := generateGo_emits data hgo device dev hmem
      have hs0 : sz ≠ "0" := fun h => hsz (h ▸ hs)
      rw [hfiles]
      exact List.mem_cons_of_mem _ (List.mem_map_of_mem Prod.fst (himp hs0).1)
  · intro hsz
    obtain ⟨sz, hs, himp⟩ := generateGo_emits data hgo device dev hmem
    have hs0 : sz ≠ "0" := fun h => hsz (h ▸ hs)
    refine ⟨(emitDevice device dev).1, ?_, emitDevice_ok_contains device dev (himp hs0).2⟩
    rw [hfiles]
    exact List.mem_cons_of_mem _ (himp hs0).1

/-- Claim C1, witness: the amended claim applied to the spec scenario's
`usart1` device. -/
theorem claim_C1_witness :
    (("usart1" ++ ".h") ∈ (generate_c scenarioData).1.map Prod.fst ↔ usart1Dev.size ≠ some "0")
    ∧ (usart1Dev.size ≠ some "0" →
        ∃ content, ("usart1" ++ ".h", content) ∈ (generate_c scenarioData).1 ∧
          ContainsStr content
            ("static const struct user_driver_device_infos " ++ "usart1" ++ "_dev_infos")) :=
  claim_C1 scenarioData "usart1" usart1Dev (by decide) (by decide) (by decide) (by decide)

/-- Claim C2: the spec scenario (dma1 with size "0", usart1 with size
"0x400", irqs ["USART1_IRQ",0,0,0], irqs_literal [37,0,0,0], gpios
(1,9),(1,10)) runs without error, produces exactly the files `devinfo.h`
and `usart1.h` (no `dma1.h`), and `usart1.h` defines `USART1_IRQ 37` and
lists the gpio pairs (1,9),(1,10),(0,0),(0,0). -/
theorem claim_C2 :
    (generate_c scenarioData).2 = none
    ∧ (generate_c scenarioData).1.map Prod.fst = ["devinfo.h", "usart1.h"]
    ∧ ∃ content, ("usart1.h", content) ∈ (generate_c scenarioData).1
        ∧ ContainsStr content "#define USART1_IRQ 37\n"
        ∧ ContainsStr content
            "      \x7b 1, 9 \x7d,\n      \x7b 1, 10 \x7d,\n      \x7b 0, 0 \x7d,\n      \x7b 0, 0 \x7d,\n" := by
  have hscen : scenarioData = [("dma1", dma1Dev), ("usart1", usart1Dev)] := rfl
  have hsz1 : dma1Dev.size = some "0" := rfl
  have hsz2 : usart1Dev.size = some "0x400" := rfl
  have hemit : (emitDevice "usart1" usart1Dev).2 = none := by decide
  have hrun : generate_c scenarioData =
      ([("devinfo.h", devinfoContent), ("usart1" ++ ".h", (emitDevice "usart1" usart1Dev).1)],
        none) := by
    rw [generate_c, hscen, generateGo_cons_skip _ _ _ _ hsz1,
      generateGo_cons_ok _ _ _ _ "0x400" hsz2 (by decide) hemit]
    rfl
  have husart : ("usart1" : String) ++ ".h" = "usart1.h" := rfl
  have hdec := emitDevice_eq "usart1" usart1Dev (.sym "USART1_IRQ") [.lit 0, .lit 0, .lit 0]
    "0x40011000" "0x400" rfl (by decide) rfl rfl
  have hcontent := congrArg Prod.fst hdec
  have hmac : (irqMacroLoop usart1Dev 0 [.sym "USART1_IRQ", .lit 0, .lit 0, .lit 0]).1
      = "#define USART1_IRQ 37\n" := rfl
  have hgp : gpioSection usart1Dev
      = "      \x7b 1, 9 \x7d,\n      \x7b 1, 10 \x7d,\n      \x7b 0, 0 \x7d,\n      \x7b 0, 0 \x7d,\n" :=
    rfl
  refine ⟨by rw [hrun], by rw [hrun, husart]; rfl, (emitDevice "usart1" usart1Dev).1, ?_, ?_, ?_⟩
  · rw [hrun, ← husart]
    exact List.mem_cons_of_mem _ (List.mem_singleton.2 rfl)
  · refine containsStr_of_eq
      (c_header ++ "#ifndef " ++ ("usart1".toUpper ++ "_H_") ++ "\n# define "
        ++ ("usart1".toUpper ++ "_H_") ++ "\n" ++ "\n#include \"generated/devinfo.h\"\n\n")
      ("\n" ++ "static const struct user_driver_device_infos " ++ "usart1"
        ++ "_dev_infos" ++ " = \x7b\n"
        ++ "    .address = " ++ "0x40011000" ++ ",\n"
        ++ "    .size    = " ++ "0x400" ++ ",\n"
        ++ "    .irqs[] = \x7b "
        ++ irqListTail (.sym "USART1_IRQ") [.lit 0, .lit 0, .lit 0]
        ++ "    .gpios[] = \x7b\n" ++ gpioSection usart1Dev ++ "    \x7d\n\x7d;\n" ++ c_footer) ?_
    rw [hcontent, hmac]
    simp only [String.append_assoc]
  · refine containsStr_of_eq
      (c_header ++ "#ifndef " ++ ("usart1".toUpper ++ "_H_") ++ "\n# define "
        ++ ("usart1".toUpper ++ "_H_") ++ "\n" ++ "\n#include \"generated/devinfo.h\"\n\n"
        ++ (irqMacroLoop usart1Dev 0 [.sym "USART1_IRQ", .lit 0, .lit 0, .lit 0]).1
        ++ "\n" ++ "static const struct user_driver_device_infos " ++ "usart1"
        ++ "_dev_infos" ++ " = \x7b\n"
        ++ "    .address = " ++ "0x40011000" ++ ",\n"
        ++ "    .size    = " ++ "0x400" ++ ",\n"
        ++ "    .irqs[] = \x7b "
        ++ irqListTail (.sym "USART1_IRQ") [.lit 0, .lit 0, .lit 0]
        ++ "    .gpios[] = \x7b\n")
      ("    \x7d\n\x7d;\n" ++ c_footer) ?_
    rw [hcontent, ← hgp]
    simp only [String.append_assoc]

/-! ## Further helper lemmas -/

theorem writeEach_append (f : α → String) (l1 l2 : List α) :
    writeEach f (l1 ++ l2) = writeEach f l1 ++ writeEach f l2 := by
  induction l1 with
  | nil => simp [writeEach]
  | cons a l ih => simp [writeEach, ih, String.append_assoc]

/-- Writing the fixed padding text once per element of `range(len, 4)` is
writing the `\x7b 0, 0 \x7d` line once per padding slot. -/
theorem gpioPad : ∀ (n s : Nat),
    writeEach (fun _ : Nat => "      \x7b 0, 0 \x7d,\n") (List.range' s n)
      = writeEach gpioLine (List.replicate n ⟨"0", "0"⟩)
  | 0, _ => rfl
  | n + 1, s => by
    have h1 : List.range' s (n + 1) = s :: List.range' (s + 1) n := rfl
    have h2 : List.replicate (n + 1) (⟨"0", "0"⟩ : Gpio) = ⟨"0", "0"⟩ :: List.replicate n ⟨"0", "0"⟩ := rfl
    rw [h1, h2, writeEach, writeEach, gpioPad n (s + 1)]
    rfl

theorem joinSep_cons (rest : List IrqEntry) :
    ∀ x : String,
      x ++ writeEach (fun irq => ", " ++ showIrq irq) rest
        = joinSep ", " (x :: rest.map showIrq) := by
  induction rest with
  | nil => intro x; simp [writeEach, joinSep]
  | cons b l ih =>
    intro x
    rw [List.map_cons, writeEach]
    show x ++ ((", " ++ showIrq b) ++ writeEach _ l)
      = joinSep ", " (x :: showIrq b :: l.map showIrq)
    rw [joinSep, ← ih (showIrq b)]
    simp only [String.append_assoc]

/-- The IRQ macro loop, started at any index, produces exactly one
`#define` line per slot whose entry is not the literal `0`, taking the
value from `irqs_literal` at that slot's index, and no error, provided the
needed indices exist. -/
theorem irqMacroLoop_enumFrom (dev : Device) (irqvals : List Int)
    (hlit : dev.irqs_literal = some irqvals) :
    ∀ (irqs : List IrqEntry) (start : Nat),
      (∀ p ∈ irqs.enumFrom start, p.2 ≠ IrqEntry.lit 0 → p.1 < irqvals.length) →
      irqMacroLoop dev start irqs =
        (writeEach
          (fun p => "#define " ++ showIrq p.2 ++ " " ++ toString (irqvals.getD p.1 0) ++ "\n")
          ((irqs.enumFrom start).filter (fun p => p.2 ≠ IrqEntry.lit 0)), none) := by
  intro irqs
  induction irqs with
  | nil => intro start _; rfl
  | cons irq rest ih =>
    intro start h
    have henum : List.enumFrom start (irq :: rest)
        = (start, irq) :: List.enumFrom (start + 1) rest := rfl
    by_cases h0 : irq = IrqEntry.lit 0
    · subst h0
      rw [irqMacroLoop, if_pos rfl, henum, List.filter_cons, if_neg (by simp)]
      exact ih (start + 1) (fun p hp => h p (henum ▸ List.mem_cons_of_mem _ hp))
    · have hlt : start < irqvals.length :=
        h (start, irq) (henum ▸ List.mem_cons_self _ _) h0
      simp only [irqMacroLoop, hlit, if_neg h0, if_pos hlt]
      rw [henum, List.filter_cons, if_pos (by simp [h0]), writeEach,
        ih (start + 1) (fun p hp => h p (henum ▸ List.mem_cons_of_mem _ hp))]

/-- The IRQ macro loop writes nothing and never consults `irqs_literal`
when every slot is the literal `0`. -/
theorem irqMacroLoop_allZero (dev : Device) :
    ∀ (irqs : List IrqEntry), (∀ irq ∈ irqs, irq = IrqEntry.lit 0) →
      ∀ start, irqMacroLoop dev start irqs = ("", none) := by
  intro irqs
  induction irqs with
  | nil => intro _ start; rfl
  | cons irq rest ih =>
    intro h start
    rw [irqMacroLoop, if_pos (h irq (List.mem_cons_self _ _))]
    exact ih (fun i hi => h i (List.mem_cons_of_mem _ hi)) (start + 1)

/-- A device whose `irqs` key is absent aborts with `KeyError` right after
the guard and include lines are written. -/
theorem emitDevice_noIrqs (device : String) (dev : Device) (hirqs : dev.irqs = none) :
    emitDevice device dev =
      (c_header ++ "#ifndef " ++ (device.toUpper ++ "_H_") ++ "\n# define "
         ++ (device.toUpper ++ "_H_") ++ "\n" ++ "\n#include \"generated/devinfo.h\"\n\n",
       some (GenError.keyError "irqs")) := by
  simp only [emitDevice, hirqs]

/-- If the device loop fails on a prefix of the document, the devices after
that prefix are never reached. -/
theorem generateGo_append_err (l1 l2 : List (String × Device)) :
    ∀ (acc : List (String × String)) (e : GenError),
      (generateGo l1 acc).2 = some e →
      generateGo (l1 ++ l2) acc = generateGo l1 acc := by
  induction l1 with
  | nil => intro acc e h; simp [generateGo] at h
  | cons hd tl ih =>
    obtain ⟨device, dev⟩ := hd
    intro acc e h
    cases hsz : dev.size with
    | none =>
      rw [List.cons_append, generateGo_cons_noSize _ _ _ _ hsz,
        generateGo_cons_noSize _ _ _ _ hsz]
    | some sz =>
      by_cases h0 : sz = "0"
      · subst h0
        rw [generateGo_cons_skip _ _ _ _ hsz] at h
        rw [List.cons_append, generateGo_cons_skip _ _ _ _ hsz,
          generateGo_cons_skip _ _ _ _ hsz]
        exact ih _ _ h
      · cases hemit : (emitDevice device dev).2 with
        | some e2 =>
          rw [List.cons_append, generateGo_cons_err _ _ _ _ _ _ hsz h0 hemit,
            generateGo_cons_err _ _ _ _ _ _ hsz h0 hemit]
        | none =>
          rw [generateGo_cons_ok _ _ _ _ _ hsz h0 hemit] at h
          rw [List.cons_append, generateGo_cons_ok _ _ _ _ _ hsz h0 hemit,
            generateGo_cons_ok _ _ _ _ _ hsz h0 hemit]
          exact ih _ _ h

/-- If the device loop processes a prefix of the document without error,
the run continues into the remaining devices from the accumulated files. -/
theorem generateGo_append_ok (l1 l2 : List (String × Device)) :
    ∀ acc : List (String × String),
      (generateGo l1 acc).2 = none →
      generateGo (l1 ++ l2) acc = generateGo l2 (generateGo l1 acc).1 := by
  induction l1 with
  | nil => intro acc _; rfl
  | cons hd tl ih =>
    obtain ⟨device, dev⟩ := hd
    intro acc h
    cases hsz : dev.size with
    | none =>
      rw [generateGo_cons_noSize _ _ _ _ hsz] at h
      simp at h
    | some sz =>
      by_cases h0 : sz = "0"
      · subst h0
        rw [generateGo_cons_skip _ _ _ _ hsz] at h ⊢
        rw [List.cons_append, generateGo_cons_skip _ _ _ _ hsz]
        exact ih _ h
      · cases hemit : (emitDevice device dev).2 with
        | some e2 =>
          rw [generateGo_cons_err _ _ _ _ _ _ hsz h0 hemit] at h
          simp at h
        | none =>
          rw [generateGo_cons_ok _ _ _ _ _ hsz h0 hemit] at h ⊢
          rw [List.cons_append, generateGo_cons_ok _ _ _ _ _ hsz h0 hemit]
          exact ih _ h

/-- A sequence of overwriting file writes is determined by the last write
to each name, falling back to the prior state. -/
theorem writeFiles_lastWrite (ws : List (String × String)) :
    ∀ (fm : String → Option String) (m : String),
      writeFiles fm ws m =
        match lastWrite ws m with
        | some c => some c
        | none => fm m := by
  induction ws with
  | nil => intro fm m; rfl
  | cons w ws ih =>
    intro fm m
    show writeFiles (fsWrite fm w) ws m = _
    rw [ih, lastWrite]
    cases h : lastWrite ws m with
    | some c => rfl
    | none =>
      show fsWrite fm w m = _
      rw [fsWrite]
      by_cases hw : w.1 = m
      · simp [hw]
      · have hmw : ¬m = w.1 := fun hmw => hw hmw.symm
        simp [hw, hmw]

/-- Replaying the same writes over their own result changes nothing. -/
theorem writeFiles_idem (fm : String → Option String) (ws : List (String × String)) :
    writeFiles (writeFiles fm ws) ws = writeFiles fm ws := by
  funext m
  rw [writeFiles_lastWrite, writeFiles_lastWrite]
  cases h : lastWrite ws m <;> simp [h]

theorem ensureDir_dirs_contains (fs : FS) (d : String) :
    (ensureDir fs d).dirs.contains d = true := by
  rw [ensureDir]
  split
  · assumption
  · simp

/-- Creating a directory that an earlier `ensureDir` already created is a
no-op, whatever happened to the files since. -/
theorem ensureDir_stable (fs : FS) (d : String) (g : String → Option String) :
    ensureDir { dirs := (ensureDir fs d).dirs, files := g } d
      = { dirs := (ensureDir fs d).dirs, files := g } := by
  rw [ensureDir, if_pos]
  exact ensureDir_dirs_contains fs d

/-- Claim C3: the IRQ macro block of an emitted device binds, for each
index `i` with `irqs[i]` not the literal `0`, the symbolic name `irqs[i]`
to the numeric value `irqs_literal[i]`, and emits nothing for the `0`
slots — the block is exactly `macroSpec`, with no error. -/
theorem claim_C3 (dev : Device) (irqs : List IrqEntry) (irqvals : List Int)
    (hlit : dev.irqs_literal = some irqvals)
    (hrange : ∀ p ∈ irqs.enum, p.2 ≠ IrqEntry.lit 0 → p.1 < irqvals.length) :
    irqMacroLoop dev 0 irqs = (macroSpec irqs irqvals, none) := by
  rw [macroSpec]
  exact irqMacroLoop_enumFrom dev irqvals hlit irqs 0 hrange

/-- The spec's IRQ macro example device. -/
def uartDev : Device :=
  { address := some "0x40011000", size := some "0x400",
    irqs := some [.sym "UART1_IRQ", .lit 0, .sym "UART1_ERR_IRQ", .lit 0],
    irqs_literal := some [37, 0, 38, 0], gpios := none }

/-- Claim C3, witness: the spec's example, where the block is exactly the
two `#define` lines. -/
theorem claim_C3_witness :
    irqMacroLoop uartDev 0 [.sym "UART1_IRQ", .lit 0, .sym "UART1_ERR_IRQ", .lit 0]
      = (macroSpec [.sym "UART1_IRQ", .lit 0, .sym "UART1_ERR_IRQ", .lit 0] [37, 0, 38, 0],
         none)
    ∧ macroSpec [.sym "UART1_IRQ", .lit 0, .sym "UART1_ERR_IRQ", .lit 0] [37, 0, 38, 0]
      = "#define UART1_IRQ 37\n#define UART1_ERR_IRQ 38\n" :=
  ⟨claim_C3 uartDev _ _ rfl (by decide), rfl⟩

/-- Claim C4: the emitted gpio pairs are the source pairs in order padded
with `\x7b 0, 0 \x7d` to exactly 4 when the `gpios` key holds at most 4
pairs, and exactly 4 `\x7b 0, 0 \x7d` pairs when the key is absent. -/
theorem claim_C4 :
    (∀ (dev : Device) (gs : List Gpio), dev.gpios = some gs → gs.length ≤ 4 →
        gpioSection dev = writeEach gpioLine (gs ++ List.replicate (4 - gs.length) ⟨"0", "0"⟩))
    ∧ (∀ dev : Device, dev.gpios = none →
        gpioSection dev = writeEach gpioLine (List.replicate 4 ⟨"0", "0"⟩)) := by
  constructor
  · intro dev gs h hle
    simp only [gpioSection, h]
    by_cases hlt : gs.length < 4
    · rw [if_pos hlt, gpioPad, ← writeEach_append]
    · have h4 : gs.length = 4 := le_antisymm hle (not_lt.1 hlt)
      rw [if_neg hlt, h4]
      simp [String.append_empty]
  · intro dev h
    simp only [gpioSection, h]
    rfl

/-- A mappable device carrying one gpio pair, for the C4 witness. -/
def gpioOneDev : Device :=
  { address := some "0x40020000", size := some "0x400",
    irqs := some [.lit 0, .lit 0, .lit 0, .lit 0], irqs_literal := none,
    gpios := some [⟨"2", "5"⟩] }

/-- Claim C4, witness: one pair `(2,5)` padded with three `(0,0)` pairs,
and the no-`gpios` device `dma1` yielding four `(0,0)` pairs. -/
theorem claim_C4_witness :
    (gpioSection gpioOneDev
      = writeEach gpioLine
          ([⟨"2", "5"⟩] ++ List.replicate (4 - ([⟨"2", "5"⟩] : List Gpio).length) ⟨"0", "0"⟩))
    ∧ (gpioSection dma1Dev = writeEach gpioLine (List.replicate 4 ⟨"0", "0"⟩)) :=
  ⟨claim_C4.1 gpioOneDev [⟨"2", "5"⟩] rfl (by decide), claim_C4.2 dma1Dev rfl⟩

/-- Claim C5: the `.irqs[]` braced list is the source `irqs` entries joined
by ", " — one element per source slot, zero slots written explicitly, and
no padding to 4 when the source sequence is shorter. -/
theorem claim_C5 (first : IrqEntry) (rest : List IrqEntry) :
    irqListTail first rest
      = "    " ++ joinSep ", " ((first :: rest).map showIrq) ++ " \x7d,\n"
    ∧ ((first :: rest).map showIrq).length = (first :: rest).length := by
  constructor
  · rw [irqListTail, List.map_cons, ← joinSep_cons rest (showIrq first)]
    simp only [String.append_assoc]
  · simp

/-- Claim C6: a mappable device lacking `irqs` aborts the whole run with
`KeyError` at that device: no later device is processed (the result does
not depend on the devices after it), and the process exit code is 1. -/
theorem claim_C6 (pre post : List (String × Device)) (device : String) (dev : Device)
    (sz : String) (argv0 outdir fname : String) (fs : FS)
    (hpre : (generate_c pre).2 = none)
    (hsz : dev.size = some sz) (h0 : sz ≠ "0") (hirqs : dev.irqs = none) :
    (generate_c (pre ++ (device, dev) :: post)).2 = some (GenError.keyError "irqs")
    ∧ generate_c (pre ++ (device, dev) :: post) = generate_c (pre ++ [(device, dev)])
    ∧ (runProgram [argv0, outdir, fname] (pre ++ (device, dev) :: post) fs).exitCode = 1 := by
  have hpre' : (generateGo pre [("devinfo.h", devinfoContent)]).2 = none := hpre
  have hemit : (emitDevice device dev).2 = some (GenError.keyError "irqs") :=
    congrArg Prod.snd (emitDevice_noIrqs device dev hirqs)
  have hstep : ∀ rest2 : List (String × Device),
      generate_c (pre ++ (device, dev) :: rest2)
        = ((generate_c pre).1 ++ [(device ++ ".h", (emitDevice device dev).1)],
           some (GenError.keyError "irqs")) := by
    intro rest2
    rw [generate_c, generateGo_append_ok pre ((device, dev) :: rest2) _ hpre',
      generateGo_cons_err _ _ _ _ _ _ hsz h0 hemit]
    rfl
  refine ⟨by rw [hstep post], by rw [hstep post, hstep []], ?_⟩
  rw [runProgram, if_neg (by simp)]
  simp only [hstep post]

/-- An empty output directory state, for witnesses. -/
def fsEmpty : FS := { dirs := [], files := fun _ => none }

/-- A mappable device whose `irqs` key is absent, for the C6 witness. -/
def noIrqsDev : Device :=
  { address := some "0x40013000", size := some "0x400",
    irqs := none, irqs_literal := none, gpios := none }

/-- Claim C6, witness: a clean `usart1` prefix, then a mappable `spi1`
without `irqs`, then a `dma1` that is never reached. -/
theorem claim_C6_witness :
    (generate_c ([("usart1", usart1Dev)] ++ ("spi1", noIrqsDev) :: [("dma1", dma1Dev)])).2
        = some (GenError.keyError "irqs")
    ∧ generate_c ([("usart1", usart1Dev)] ++ ("spi1", noIrqsDev) :: [("dma1", dma1Dev)])
        = generate_c ([("usart1", usart1Dev)] ++ [("spi1", noIrqsDev)])
    ∧ (runProgram ["devheader.py", "out", "layout.json"]
        ([("usart1", usart1Dev)] ++ ("spi1", noIrqsDev) :: [("dma1", dma1Dev)])
        fsEmpty).exitCode = 1 :=
  claim_C6 [("usart1", usart1Dev)] [("dma1", dma1Dev)] "spi1" noIrqsDev "0x400"
    "devheader.py" "out" "layout.json" fsEmpty (by decide) rfl (by decide) rfl

/-- Claim C7: a mappable device whose `irqs` entries are all the literal
`0` and which has no `irqs_literal` key is emitted successfully —
`irqs_literal` is never consulted, so its absence raises nothing. -/
theorem claim_C7 (device : String) (dev : Device) (sz addr : String)
    (first : IrqEntry) (rest : List IrqEntry)
    (hsz : dev.size = some sz) (h0 : sz ≠ "0")
    (haddr : dev.address = some addr)
    (hirqs : dev.irqs = some (first :: rest))
    (hzero : ∀ irq ∈ first :: rest, irq = IrqEntry.lit 0)
    (_hnolit : dev.irqs_literal = none) :
    (emitDevice device dev).2 = none
    ∧ (generate_c [(device, dev)]).2 = none
    ∧ (generate_c [(device, dev)]).1.map Prod.fst = ["devinfo.h", device ++ ".h"] := by
  have hm : (irqMacroLoop dev 0 (first :: rest)).2 = none := by
    rw [irqMacroLoop_allZero dev (first :: rest) hzero 0]
  have hemit : (emitDevice device dev).2 = none :=
    congrArg Prod.snd (emitDevice_eq device dev first rest addr sz hirqs hm haddr hsz)
  refine ⟨hemit, ?_, ?_⟩
  · rw [generate_c, generateGo_cons_ok _ _ _ _ _ hsz h0 hemit]
    rfl
  · rw [generate_c, generateGo_cons_ok _ _ _ _ _ hsz h0 hemit]
    rfl

/-- A mappable device with four zero IRQ slots and no `irqs_literal` key,
for the C7 witness. -/
def allZeroDev : Device :=
  { address := some "0x50000000", size := some "0x100",
    irqs := some [.lit 0, .lit 0, .lit 0, .lit 0], irqs_literal := none, gpios := none }

/-- Claim C7, witness. -/
theorem claim_C7_witness :
    (emitDevice "hash" allZeroDev).2 = none
    ∧ (generate_c [("hash", allZeroDev)]).2 = none
    ∧ (generate_c [("hash", allZeroDev)]).1.map Prod.fst = ["devinfo.h", "hash" ++ ".h"] :=
  claim_C7 "hash" allZeroDev "0x100" "0x50000000" (.lit 0) [.lit 0, .lit 0, .lit 0]
    rfl (by decide) rfl rfl (by decide) rfl

/-- Claim C8: with an argument count other than exactly two positional
arguments (`len(sys.argv) != 3`), the program prints the usage message to
standard output and exits with code 1, leaving the filesystem untouched —
no directory created, no file written. -/
theorem claim_C8 (argv : List String) (data : List (String × Device)) (fs : FS)
    (h : argv.length ≠ 3) :
    runProgram argv data fs
      = { fs := fs, stdout := usageMsg (argv.getD 0 ""), exitCode := 1 } := by
  rw [runProgram, if_pos h]

/-- Claim C8, witness: invoking with no positional argument. -/
theorem claim_C8_witness :
    runProgram ["devheader.py"] scenarioData fsEmpty
      = { fs := fsEmpty, stdout := usageMsg (["devheader.py"].getD 0 ""), exitCode := 1 } :=
  claim_C8 ["devheader.py"] scenarioData fsEmpty (by decide)

/-- Claim C9: the generator is deterministic and overwrites whole files, so
a second run with the same input over the directory state left by the first
run reproduces that state byte for byte. -/
theorem claim_C9 (argv : List String) (data : List (String × Device)) (fs : FS) :
    (runProgram argv data (runProgram argv data fs).fs).fs = (runProgram argv data fs).fs := by
  by_cases h : argv.length ≠ 3
  · simp [runProgram, h]
  · simp only [runProgram, if_neg h]
    rw [ensureDir_stable]
    rw [writeFiles_idem]

/-- A mappable device whose `irqs` sequence is empty, for C10. -/
def emptyIrqsDev : Device :=
  { address := some "0x60000000", size := some "0x200",
    irqs := some [], irqs_literal := none, gpios := none }

/-- Claim C10: emitting a mappable device unconditionally indexes
`irqs[0]`, so an empty `irqs` sequence aborts the run with `IndexError`
right after the `.irqs[] = \x7b ` opener is written: no empty braced list
is emitted and the file stops there. -/
theorem claim_C10 (device : String) (dev : Device) (sz addr : String)
    (hsz : dev.size = some sz) (_h0 : sz ≠ "0")
    (haddr : dev.address = some addr)
    (hirqs : dev.irqs = some []) :
    (emitDevice device dev).2 = some GenError.indexError
    ∧ ∃ p : String, (emitDevice device dev).1 = p ++ "    .irqs[] = \x7b " := by
  simp only [emitDevice, hirqs, haddr, hsz, irqMacroLoop]
  exact ⟨trivial, _, rfl⟩

/-- Claim C10, witness. -/
theorem claim_C10_witness :
    (emitDevice "cryp" emptyIrqsDev).2 = some GenError.indexError
    ∧ ∃ p : String, (emitDevice "cryp" emptyIrqsDev).1 = p ++ "    .irqs[] = \x7b " :=
  claim_C10 "cryp" emptyIrqsDev "0x200" "0x60000000" rfl (by decide) rfl rfl

end Devheader
